import Mathlib

/-!
Shallow embedding of the operator-execution core of the OAP native SQL
engine plugin: `src/cpp/src/codegen/arrow_compute/expr_visitor_impl.h` and
`src/cpp/src/codegen/code_generator_factory.h`.

Each C++ visitor method mutating the shared `ExprVisitor* p_` context and
its own private members is rendered as a pure function from the pair of
states to an `Outcome` carrying the new states.  C++ undefined behaviour
(out-of-range `std::vector` indexing, out-of-range `RecordBatch::column`,
calls through a null kernel pointer) is rendered as the distinguished
outcome `crash`, kept apart from every `arrow::Status` error return.
Kernels (`kernels_ext.h`, outside the embedded sources) are opaque
recorders: they log the calls the visitors make into them and always
report success, since every claim here is about visitor-level logic.
-/

namespace OAP

/-- The arrow status codes actually used by the embedded sources:
`arrow::Status::OK`, `arrow::Status::Invalid`, `arrow::Status::NotImplemented`
and `arrow::Status::TypeError`.  Note arrow has no separate
invalid-state code: lifecycle violations and bad column references both
come out of the same `Invalid` constructor. -/
inductive StatusCode where
  | OK
  | Invalid
  | NotImplemented
  | TypeError
  deriving Repr, DecidableEq

/-- `arrow::Status`: a code plus the concatenated message text. -/
structure Status where
  code : StatusCode
  msg : String
  deriving Repr, DecidableEq

/-- `ArrowComputeResultType`: the runtime tag describing the shape of data
flowing between operator stages. -/
inductive ArrowComputeResultType where
  | None
  | Array
  | Batch
  | BatchIterator
  deriving Repr, DecidableEq

/-- Arrow data types occurring in the embedded sources: schema field types
plus the synthetic `arrow::int64()`, `arrow::uint32()` and
`arrow::FixedSizeBinaryType(byte_width)` outputs built by the visitors. -/
inductive DataType where
  | int64
  | uint32
  | fixedSizeBinary (byte_width : Nat)
  | utf8
  | float64
  | named (s : String)
  deriving Repr, DecidableEq

/-- `arrow::Field`: a name and a type. -/
structure Field where
  name : String
  type : DataType
  deriving Repr, DecidableEq

/-- `arrow::Schema`: an ordered field list. -/
def Schema := List Field
deriving Repr, DecidableEq

/-- The possible kernel constructions (`extra::*Kernel::Make`) invoked by the
visitors, with the construction arguments the visitors pass. -/
inductive KernelKind where
  | SplitArrayListWithAction (actions : List String) (types : List DataType)
  | SumArray (t : DataType)
  | AppendArray
  | CountArray (t : DataType)
  | UniqueArray
  | SumCountArray (t : DataType)
  | AvgByCountArray (t : DataType)
  | MinArray (t : DataType)
  | MaxArray (t : DataType)
  | EncodeArray
  | HashAggrArray (types : List DataType)
  | ProbeArray
  | TakeArray
  | NTakeArray
  | SortArraysToIndices (nulls_first : Bool) (asc : Bool)
  | ShuffleArrayList (types : List DataType)
  | ProbeArrays (t : DataType) (join_type : Int)
  deriving Repr, DecidableEq

/-- A columnar array value.  Contents are opaque to the visitor layer:
either an input column identified by position of origin, or a kernel
output. -/
inductive ArrowArray where
  | input (id : Nat)
  | fromKernel (k : KernelKind)
  deriving Repr, DecidableEq

/-- `arrow::RecordBatch` as seen by the visitors: an ordered column list.
`column(i)` out of range is `std::vector` UB, so it is `Option`-valued
here and the caller maps `none` to `crash`. -/
structure RecordBatch where
  columns : List ArrowArray
  deriving Repr, DecidableEq

def RecordBatch.num_columns (b : RecordBatch) : Nat := b.columns.length

def RecordBatch.column (b : RecordBatch) (i : Nat) : Option ArrowArray :=
  b.columns.get? i

/-- An opaque batch result written into the context by a kernel
(`Finish(&result_batch)` / `Evaluate(cols, &result_batch)`). -/
inductive BatchResult where
  | fromKernel (k : KernelKind)
  deriving Repr, DecidableEq

/-- An opaque `ResultIterator<arrow::RecordBatch>` produced by a kernel
`MakeResultIterator`. -/
inductive IterResult where
  | fromKernel (k : KernelKind)
  deriving Repr, DecidableEq

/-- A kernel instance: its construction arguments plus a faithful log of
the calls a visitor has made into it.  The visitors never inspect kernel
internals, so recording the calls captures exactly the visitor-observable
effect. -/
structure Kernel where
  kind : KernelKind
  evalLog : List (List ArrowArray) := []
  member : Option (Option RecordBatch) := none
  depInput : Option ArrowArray := none
  depIters : List (Nat × Nat) := []
  finished : Bool := false
  deriving Repr, DecidableEq

def Kernel.make (k : KernelKind) : Kernel := { kind := k }

def Kernel.evaluate (k : Kernel) (cols : List ArrowArray) : Kernel :=
  { k with evalLog := k.evalLog ++ [cols] }

def Kernel.setMember (k : Kernel) (b : Option RecordBatch) : Kernel :=
  { k with member := some b }

def Kernel.setDependencyInput (k : Kernel) (a : ArrowArray) : Kernel :=
  { k with depInput := some a }

def Kernel.setDependencyIter (k : Kernel) (iter : Nat) (index : Nat) : Kernel :=
  { k with depIters := k.depIters ++ [(iter, index)] }

def Kernel.finish (k : Kernel) : Kernel := { k with finished := true }

/-- The shared `ExprVisitor* p_` context: schema, parameter name lists, the
current input batch and array, the running result-type tags and the output
holders.  (The declaration lives in `expr_visitor.h`; the fields and their
use are exactly those read and written by `expr_visitor_impl.h`.) -/
structure ExprVisitor where
  schema_ : Schema
  param_field_names_ : List String
  action_name_list_ : List String
  action_param_list_ : List String
  in_record_batch_ : RecordBatch
  in_array_ : Option ArrowArray
  member_record_batch_ : Option RecordBatch
  dependency_result_type_ : ArrowComputeResultType
  return_type_ : ArrowComputeResultType
  result_fields_ : List Field
  result_array_ : Option ArrowArray
  result_batch_ : Option BatchResult
  deriving Repr, DecidableEq

/-- Outcome of one visitor method call: normal return with the new states,
an `arrow::Status` error return carrying the (partially mutated) states,
or C++ undefined behaviour. -/
inductive Outcome (σ : Type) where
  | ok (st : σ)
  | err (code : StatusCode) (msg : String) (st : σ)
  | crash
  deriving Repr, DecidableEq

/-- `ExprVisitorImpl::GetColumnIdAndFieldByName`: `schema->GetFieldIndex`
returns the first index whose field carries the name, or fails with
`Invalid` when the name is absent. -/
def findFieldWithIdx : Schema → String → Option (Nat × Field)
  | [], _ => none
  | f :: rest, n =>
      if f.name = n then some (0, f)
      else (findFieldWithIdx rest n).map (fun p => (p.1 + 1, p.2))

def GetColumnIdAndFieldByName (schema : Schema) (col_name : String) :
    Except Status (Nat × Field) :=
  match findFieldWithIdx schema col_name with
  | some (i, f) => .ok (i, f)
  | none =>
      .error ⟨.Invalid,
        "GetColumnIdAndFieldByName doesn't found col_name " ++ col_name⟩

/-- Accumulator for the per-column resolution loops of the `Init` methods:
the fields, column ids and types pushed so far, in push order. -/
structure ResolveAcc where
  fields : List Field := []
  ids : List Nat := []
  types : List DataType := []
  deriving Repr, DecidableEq

/-- The common `for (auto col_name : names) { GetColumnIdAndFieldByName;
push_back... }` loop.  On the first unresolvable name the loop returns the
error together with the pushes already performed (C++ `RETURN_NOT_OK`
leaves earlier mutations in place). -/
def resolveAll (schema : Schema) : List String → ResolveAcc →
    Except (Status × ResolveAcc) ResolveAcc
  | [], acc => .ok acc
  | n :: rest, acc =>
      match GetColumnIdAndFieldByName schema n with
      | .error st => .error (st, acc)
      | .ok (i, f) =>
          resolveAll schema rest
            ⟨acc.fields ++ [f], acc.ids ++ [i], acc.types ++ [f.type]⟩

/-- The checked gather loop of `SplitArrayListWithActionVisitorImpl::Eval`,
`AggregateVisitorImpl::Eval` and `ShuffleArrayListVisitorImpl::Eval`:
each id is first tested against `num_columns` and the loop fails on the
first violation, before reading that column. -/
def gatherChecked (b : RecordBatch) : List Nat → Except Unit (List ArrowArray)
  | [] => .ok []
  | i :: rest =>
      if b.num_columns ≤ i then .error ()
      else
        match b.column i, gatherChecked b rest with
        | some c, .ok cs => .ok (c :: cs)
        | _, .error _ => .error ()
        | none, _ => .error ()

/-- The unchecked gather loop of `EncodeVisitorImpl::Eval` and
`ProbeArraysVisitorImpl::Eval`: `column(col_id)` is read with no bound
test, so an out-of-range id is UB (`none` here, `crash` at the caller). -/
def gatherUnchecked (b : RecordBatch) : List Nat → Option (List ArrowArray)
  | [] => some []
  | i :: rest =>
      match b.column i, gatherUnchecked b rest with
      | some c, some cs => some (c :: cs)
      | _, _ => none

/-! ## SplitArrayListWithActionVisitorImpl -/

namespace SplitArrayListWithActionVisitorImpl

/-- Private members of `SplitArrayListWithActionVisitorImpl` together with
the `ExprVisitorImpl` base members it uses.  `finish_return_type_` is an
uninitialized enum member in C++, so no initial value is fixed here. -/
structure State where
  initialized_ : Bool
  finish_return_type_ : ArrowComputeResultType
  kernel_ : Option Kernel
  col_id_list_ : List Nat
  deriving Repr, DecidableEq

def Init (p : ExprVisitor) (s : State) : Outcome (ExprVisitor × State) :=
  if s.initialized_ then .ok (p, s)
  else if p.action_name_list_ = [] then
    .err .Invalid
      ("ExprVisitor::SplitArrayListWithAction have empty action_name_list, " ++
       "this is invalid.") (p, s)
  else
    match resolveAll p.schema_ p.action_param_list_ {} with
    | .error (st, acc) =>
        .err st.code st.msg
          ({ p with result_fields_ := p.result_fields_ ++ acc.fields },
           { s with col_id_list_ := s.col_id_list_ ++ acc.ids })
    | .ok acc =>
        .ok ({ p with result_fields_ := p.result_fields_ ++ acc.fields },
             { s with
                col_id_list_ := s.col_id_list_ ++ acc.ids,
                kernel_ := some (Kernel.make
                  (.SplitArrayListWithAction p.action_name_list_ acc.types)),
                initialized_ := true })

def Eval (p : ExprVisitor) (s : State) : Outcome (ExprVisitor × State) :=
  match p.dependency_result_type_ with
  | .Array =>
      match gatherChecked p.in_record_batch_ s.col_id_list_ with
      | .error _ =>
          .err .Invalid
            ("SplitArrayListWithActionVisitorImpl Eval col_id is bigger than input " ++
             "batch numColumns.") (p, s)
      | .ok col_list =>
          match s.kernel_ with
          | none => .crash
          | some k =>
              .ok ({ p with dependency_result_type_ := .None },
                   { s with
                      kernel_ := some (k.evaluate col_list),
                      finish_return_type_ := .Batch })
  | _ =>
      .err .NotImplemented
        "SplitArrayListWithActionVisitorImpl: Does not support this type of input."
        (p, s)

end SplitArrayListWithActionVisitorImpl

/-! ## AggregateVisitorImpl -/

namespace AggregateVisitorImpl

structure State where
  initialized_ : Bool
  finish_return_type_ : ArrowComputeResultType
  kernel_ : Option Kernel
  col_id_list_ : List Nat
  func_name_ : String
  deriving Repr, DecidableEq

/-- `AggregateVisitorImpl::Init`: resolves each parameter column, pushing
its field into the shared result-field list; `data_type` is taken from
`p_->result_fields_[0]` (vector UB when that list is empty); the function
name then selects the kernel, with `sum_count` pushing an extra
`field("cnt", int64())` and `avgByCount` erasing the last entry of the
shared list — and with no final `else`, so an unrecognized name binds no
kernel yet still marks the visitor initialized and returns OK. -/
def Init (p : ExprVisitor) (s : State) : Outcome (ExprVisitor × State) :=
  if s.initialized_ then .ok (p, s)
  else
    match resolveAll p.schema_ p.param_field_names_ {} with
    | .error (st, acc) =>
        .err st.code st.msg
          ({ p with result_fields_ := p.result_fields_ ++ acc.fields },
           { s with col_id_list_ := s.col_id_list_ ++ acc.ids })
    | .ok acc =>
        let p1 := { p with result_fields_ := p.result_fields_ ++ acc.fields }
        let s1 := { s with col_id_list_ := s.col_id_list_ ++ acc.ids }
        match p1.result_fields_.get? 0 with
        | none => .crash
        | some f0 =>
            let dt := f0.type
            if s.func_name_ = "sum" then
              .ok (p1, { s1 with kernel_ := some (Kernel.make (.SumArray dt)),
                                 initialized_ := true })
            else if s.func_name_ = "append" then
              .ok (p1, { s1 with kernel_ := some (Kernel.make .AppendArray),
                                 initialized_ := true })
            else if s.func_name_ = "count" then
              .ok (p1, { s1 with kernel_ := some (Kernel.make (.CountArray dt)),
                                 initialized_ := true })
            else if s.func_name_ = "unique" then
              .ok (p1, { s1 with kernel_ := some (Kernel.make .UniqueArray),
                                 initialized_ := true })
            else if s.func_name_ = "sum_count" then
              .ok ({ p1 with result_fields_ := p1.result_fields_ ++ [⟨"cnt", .int64⟩] },
                   { s1 with kernel_ := some (Kernel.make (.SumCountArray dt)),
                             initialized_ := true })
            else if s.func_name_ = "avgByCount" then
              .ok ({ p1 with result_fields_ := p1.result_fields_.dropLast },
                   { s1 with kernel_ := some (Kernel.make (.AvgByCountArray dt)),
                             initialized_ := true })
            else if s.func_name_ = "min" then
              .ok (p1, { s1 with kernel_ := some (Kernel.make (.MinArray dt)),
                                 initialized_ := true })
            else if s.func_name_ = "max" then
              .ok (p1, { s1 with kernel_ := some (Kernel.make (.MaxArray dt)),
                                 initialized_ := true })
            else
              .ok (p1, { s1 with initialized_ := true })

def Eval (p : ExprVisitor) (s : State) : Outcome (ExprVisitor × State) :=
  match p.dependency_result_type_ with
  | .None =>
      match gatherChecked p.in_record_batch_ s.col_id_list_ with
      | .error _ =>
          .err .Invalid
            ("AggregateVisitorImpl Eval col_id is bigger than input " ++
             "batch numColumns.") (p, s)
      | .ok cols =>
          match s.kernel_ with
          | none => .crash
          | some k =>
              .ok (p, { s with kernel_ := some (k.evaluate cols),
                               finish_return_type_ := .Batch })
  | _ =>
      .err .NotImplemented
        "AggregateVisitorImpl: Does not support this type of input." (p, s)

end AggregateVisitorImpl

/-! ## EncodeVisitorImpl -/

namespace EncodeVisitorImpl

structure State where
  initialized_ : Bool
  kernel_ : Option Kernel
  concat_kernel_ : Option Kernel
  col_id_list_ : List Nat
  deriving Repr, DecidableEq

/-- `EncodeVisitorImpl::Init`: the kernel is built before the resolution
loop; the loop pushes only column ids and types (no result fields); when
more than one key column is given a `HashAggrArrayKernel` concat kernel is
added; finally a synthetic `field("res", uint32())` result field is
registered. -/
def Init (p : ExprVisitor) (s : State) : Outcome (ExprVisitor × State) :=
  if s.initialized_ then .ok (p, s)
  else
    let s0 := { s with kernel_ := some (Kernel.make .EncodeArray) }
    match resolveAll p.schema_ p.param_field_names_ {} with
    | .error (st, acc) =>
        .err st.code st.msg
          (p, { s0 with col_id_list_ := s0.col_id_list_ ++ acc.ids })
    | .ok acc =>
        let s1 := { s0 with col_id_list_ := s0.col_id_list_ ++ acc.ids }
        let s2 :=
          if 1 < acc.types.length then
            { s1 with concat_kernel_ := some (Kernel.make (.HashAggrArray acc.types)) }
          else s1
        .ok ({ p with result_fields_ := p.result_fields_ ++ [⟨"res", .uint32⟩] },
             { s2 with initialized_ := true })

/-- `EncodeVisitorImpl::Eval`: under tag `None`, reads the key column(s)
with NO bound check (`in_record_batch_->column(col_id)` directly — UB for
an out-of-range resolved id), optionally concatenates them, then encodes
into `p_->result_array_` and sets `return_type_ = Array`. -/
def Eval (p : ExprVisitor) (s : State) : Outcome (ExprVisitor × State) :=
  match p.dependency_result_type_ with
  | .None =>
      let colAndConcat : Option (ArrowArray × Option Kernel) :=
        match s.concat_kernel_ with
        | some ck =>
            match gatherUnchecked p.in_record_batch_ s.col_id_list_ with
            | none => none
            | some arrs => some (.fromKernel ck.kind, some (ck.evaluate arrs))
        | none =>
            match s.col_id_list_.get? 0 with
            | none => none
            | some cid =>
                match p.in_record_batch_.column cid with
                | none => none
                | some c => some (c, none)
      match colAndConcat with
      | none => .crash
      | some (col, ck?) =>
          match s.kernel_ with
          | none => .crash
          | some k =>
              .ok ({ p with result_array_ := some (.fromKernel k.kind),
                            return_type_ := .Array },
                   { s with kernel_ := some (k.evaluate [col]),
                            concat_kernel_ :=
                              match ck? with
                              | some ck => some ck
                              | none => s.concat_kernel_ })
  | _ =>
      .err .NotImplemented
        "EncodeVisitorImpl: Does not support this type of input." (p, s)

end EncodeVisitorImpl

/-! ## ProbeVisitorImpl / TakeVisitorImpl / NTakeVisitorImpl

The three single-column side-table visitors share the same structure (and
the same copy-pasted `EncodeVisitorImpl ...` error strings); they differ
only in the kernel they construct. -/

/-- Private members shared by the probe-build, take and n-take visitors. -/
structure SingleColState where
  initialized_ : Bool
  finish_return_type_ : ArrowComputeResultType
  kernel_ : Option Kernel
  col_id_ : Nat
  deriving Repr, DecidableEq

/-- Common body of the three `Init`s: kernel first, then the
`param_field_names_.size() != 1` test, then resolution of the single
column name, whose field is pushed into the shared result-field list. -/
def singleColInit (kind : KernelKind) (countMsg : String)
    (p : ExprVisitor) (s : SingleColState) : Outcome (ExprVisitor × SingleColState) :=
  if s.initialized_ then .ok (p, s)
  else
    let s0 := { s with kernel_ := some (Kernel.make kind) }
    if p.param_field_names_.length ≠ 1 then .err .Invalid countMsg (p, s0)
    else
      match p.param_field_names_.get? 0 with
      | none => .crash
      | some col_name =>
          match GetColumnIdAndFieldByName p.schema_ col_name with
          | .error st => .err st.code st.msg (p, s0)
          | .ok (i, f) =>
              .ok ({ p with result_fields_ := p.result_fields_ ++ [f] },
                   { s0 with col_id_ := i, initialized_ := true })

/-- Common body of the three `Eval`s: under tag `None` the single column is
read with NO bound check (UB when `col_id_` is out of range), fed to the
kernel, and `finish_return_type_` becomes `Array`; any other tag fails
with the (misnamed) `EncodeVisitorImpl` NotImplemented message. -/
def singleColEval (p : ExprVisitor) (s : SingleColState) :
    Outcome (ExprVisitor × SingleColState) :=
  match p.dependency_result_type_ with
  | .None =>
      match p.in_record_batch_.column s.col_id_ with
      | none => .crash
      | some col =>
          match s.kernel_ with
          | none => .crash
          | some k =>
              .ok (p, { s with kernel_ := some (k.evaluate [col]),
                               finish_return_type_ := .Array })
  | _ =>
      .err .NotImplemented
        "EncodeVisitorImpl: Does not support this type of input." (p, s)

/-- Common body of the three `SetMember`s: `Invalid("Kernel is not
initialized")` before `Init`, otherwise the context's member record batch
is bound into the kernel. -/
def singleColSetMember (p : ExprVisitor) (s : SingleColState) :
    Outcome (ExprVisitor × SingleColState) :=
  if ¬s.initialized_ then .err .Invalid "Kernel is not initialized" (p, s)
  else
    match s.kernel_ with
    | none => .crash
    | some k => .ok (p, { s with kernel_ := some (k.setMember p.member_record_batch_) })

namespace ProbeVisitorImpl

def Init (p : ExprVisitor) (s : SingleColState) : Outcome (ExprVisitor × SingleColState) :=
  singleColInit .ProbeArray
    "EncodeVisitorImpl expects param_field_name_list only contains one element." p s

def Eval (p : ExprVisitor) (s : SingleColState) : Outcome (ExprVisitor × SingleColState) :=
  singleColEval p s

def SetMember (p : ExprVisitor) (s : SingleColState) :
    Outcome (ExprVisitor × SingleColState) :=
  singleColSetMember p s

end ProbeVisitorImpl

namespace TakeVisitorImpl

def Init (p : ExprVisitor) (s : SingleColState) : Outcome (ExprVisitor × SingleColState) :=
  singleColInit .TakeArray
    "EncodeVisitorImpl expects param_field_name_list only contains one element." p s

def Eval (p : ExprVisitor) (s : SingleColState) : Outcome (ExprVisitor × SingleColState) :=
  singleColEval p s

def SetMember (p : ExprVisitor) (s : SingleColState) :
    Outcome (ExprVisitor × SingleColState) :=
  singleColSetMember p s

end TakeVisitorImpl

namespace NTakeVisitorImpl

def Init (p : ExprVisitor) (s : SingleColState) : Outcome (ExprVisitor × SingleColState) :=
  singleColInit .NTakeArray
    "EncodeVisitorImpl expects param_field_name_list only contains one element." p s

def Eval (p : ExprVisitor) (s : SingleColState) : Outcome (ExprVisitor × SingleColState) :=
  singleColEval p s

def SetMember (p : ExprVisitor) (s : SingleColState) :
    Outcome (ExprVisitor × SingleColState) :=
  singleColSetMember p s

end NTakeVisitorImpl

/-! ## SortArraysToIndicesVisitorImpl -/

namespace SortArraysToIndicesVisitorImpl

structure State where
  initialized_ : Bool
  finish_return_type_ : ArrowComputeResultType
  kernel_ : Option Kernel
  col_id_ : Nat
  nulls_first_ : Bool
  asc_ : Bool
  deriving Repr, DecidableEq

def Init (p : ExprVisitor) (s : State) : Outcome (ExprVisitor × State) :=
  if s.initialized_ then .ok (p, s)
  else
    let s0 := { s with kernel_ := some (Kernel.make
                  (.SortArraysToIndices s.nulls_first_ s.asc_)) }
    if p.param_field_names_.length ≠ 1 then
      .err .Invalid
        ("SortArraysToIndicesVisitorImpl expects param_field_name_list only " ++
         "contains one element.") (p, s0)
    else
      match p.param_field_names_.get? 0 with
      | none => .crash
      | some col_name =>
          match GetColumnIdAndFieldByName p.schema_ col_name with
          | .error st => .err st.code st.msg (p, s0)
          | .ok (i, f) =>
              .ok ({ p with result_fields_ := p.result_fields_ ++ [f] },
                   { s0 with col_id_ := i, initialized_ := true })

/-- `SortArraysToIndicesVisitorImpl::Eval`: under tag `None` the single
column id IS bound-checked before the read. -/
def Eval (p : ExprVisitor) (s : State) : Outcome (ExprVisitor × State) :=
  match p.dependency_result_type_ with
  | .None =>
      if p.in_record_batch_.num_columns ≤ s.col_id_ then
        .err .Invalid
          ("SortArraysToIndicesVisitorImpl Eval col_id is bigger than input " ++
           "batch numColumns.") (p, s)
      else
        match p.in_record_batch_.column s.col_id_ with
        | none => .crash
        | some col =>
            match s.kernel_ with
            | none => .crash
            | some k =>
                .ok (p, { s with kernel_ := some (k.evaluate [col]),
                                 finish_return_type_ := .Array })
  | _ =>
      .err .NotImplemented
        "SortArraysToIndicesVisitorImpl: Does not support this type of input." (p, s)

end SortArraysToIndicesVisitorImpl

/-! ## ShuffleArrayListVisitorImpl -/

namespace ShuffleArrayListVisitorImpl

structure State where
  initialized_ : Bool
  finish_return_type_ : ArrowComputeResultType
  kernel_ : Option Kernel
  col_id_list_ : List Nat
  deriving Repr, DecidableEq

def Init (p : ExprVisitor) (s : State) : Outcome (ExprVisitor × State) :=
  if s.initialized_ then .ok (p, s)
  else
    match resolveAll p.schema_ p.param_field_names_ {} with
    | .error (st, acc) =>
        .err st.code st.msg
          ({ p with result_fields_ := p.result_fields_ ++ acc.fields },
           { s with col_id_list_ := s.col_id_list_ ++ acc.ids })
    | .ok acc =>
        .ok ({ p with result_fields_ := p.result_fields_ ++ acc.fields },
             { s with
                col_id_list_ := s.col_id_list_ ++ acc.ids,
                kernel_ := some (Kernel.make (.ShuffleArrayList acc.types)),
                initialized_ := true })

/-- `ShuffleArrayListVisitorImpl::Eval`: the bound-checked gather loop runs
BEFORE the tag dispatch; tag `None` is the cook pass (kernel accumulates,
`finish_return_type_ = Batch`), tag `BatchIterator` is the apply pass
(kernel writes `p_->result_batch_` and `return_type_ = Batch`). -/
def Eval (p : ExprVisitor) (s : State) : Outcome (ExprVisitor × State) :=
  match gatherChecked p.in_record_batch_ s.col_id_list_ with
  | .error _ =>
      .err .Invalid
        ("ShuffleArrayListVisitorImpl Eval col_id is bigger than input " ++
         "batch numColumns.") (p, s)
  | .ok col_list =>
      match p.dependency_result_type_ with
      | .None =>
          match s.kernel_ with
          | none => .crash
          | some k =>
              .ok (p, { s with kernel_ := some (k.evaluate col_list),
                               finish_return_type_ := .Batch })
      | .BatchIterator =>
          match s.kernel_ with
          | none => .crash
          | some k =>
              .ok ({ p with result_batch_ := some (.fromKernel k.kind),
                            return_type_ := .Batch },
                   { s with kernel_ := some (k.evaluate col_list) })
      | _ =>
          .err .NotImplemented
            "ShuffleArrayListVisitorImpl: Does not support this type of input." (p, s)

/-- `ShuffleArrayListVisitorImpl::Finish`: fails `Invalid` when no indices
array is present in the context; otherwise binds it as the kernel's
dependency input (before the tag switch, so the binding persists even on
the unsupported-tag error path). -/
def Finish (p : ExprVisitor) (s : State) : Outcome (ExprVisitor × State) :=
  match p.in_array_ with
  | none =>
      .err .Invalid
        ("ShuffleArrayListVisitorImpl depends on an indices array to indicate " ++
         "shuffle, while input_array is invalid.") (p, s)
  | some arr =>
      match s.kernel_ with
      | none => .crash
      | some k =>
          let k1 := k.setDependencyInput arr
          match s.finish_return_type_ with
          | .Batch =>
              .ok ({ p with result_batch_ := some (.fromKernel k1.kind),
                            return_type_ := .Batch },
                   { s with kernel_ := some k1.finish })
          | _ =>
              .err .Invalid
                ("ShuffleArrayListVisitorImpl Finish does not support dependency type " ++
                 "other than Batch and BatchList.")
                (p, { s with kernel_ := some k1 })

/-- `ShuffleArrayListVisitorImpl::SetDependency`: records the iterator at
`index` in the kernel and sets the context's dependency tag to
`BatchIterator`. -/
def SetDependency (p : ExprVisitor) (s : State) (dependency_iter : Nat) (index : Nat) :
    Outcome (ExprVisitor × State) :=
  match s.kernel_ with
  | none => .crash
  | some k =>
      .ok ({ p with dependency_result_type_ := .BatchIterator },
           { s with kernel_ := some (k.setDependencyIter dependency_iter index) })

/-- `ShuffleArrayListVisitorImpl::MakeResultIterator`: the dependency input
is bound only IF an indices array happens to be present — a missing one is
NOT an error here, unlike in `Finish`. -/
def MakeResultIterator (p : ExprVisitor) (s : State) :
    Outcome (ExprVisitor × State × Option IterResult) :=
  let s1? : Option State :=
    match p.in_array_ with
    | none => some s
    | some arr =>
        match s.kernel_ with
        | none => none
        | some k => some { s with kernel_ := some (k.setDependencyInput arr) }
  match s1? with
  | none => .crash
  | some s1 =>
      match s1.finish_return_type_ with
      | .Batch =>
          match s1.kernel_ with
          | none => .crash
          | some k =>
              .ok ({ p with return_type_ := .BatchIterator }, s1,
                   some (.fromKernel k.kind))
      | _ =>
          .err .Invalid
            ("ShuffleArrayListVisitorImpl Finish does not support dependency type " ++
             "other than Batch and BatchList.")
            (p, s1, none)

end ShuffleArrayListVisitorImpl

/-! ## ProbeArraysVisitorImpl -/

namespace ProbeArraysVisitorImpl

structure State where
  initialized_ : Bool
  finish_return_type_ : ArrowComputeResultType
  kernel_ : Option Kernel
  concat_kernel_ : Option Kernel
  col_id_list_ : List Nat
  join_type_ : Int
  deriving Repr, DecidableEq

/-- `ProbeArraysVisitorImpl::Init`: resolves key columns (ids and types
only), builds a concat kernel when multi-key (key type becomes `int64`),
builds the probe kernel with the join type, and registers a synthetic
`field("res", FixedSizeBinaryType(sizeof(ArrayItemIndex)/sizeof(int32_t)))`
result field — the width is `16 / 4 = 4`. -/
def Init (p : ExprVisitor) (s : State) : Outcome (ExprVisitor × State) :=
  if s.initialized_ then .ok (p, s)
  else
    match resolveAll p.schema_ p.param_field_names_ {} with
    | .error (st, acc) =>
        .err st.code st.msg
          (p, { s with col_id_list_ := s.col_id_list_ ++ acc.ids })
    | .ok acc =>
        let s1 := { s with col_id_list_ := s.col_id_list_ ++ acc.ids }
        let conf : Option (State × DataType) :=
          if 1 < acc.types.length then
            some ({ s1 with
                     concat_kernel_ := some (Kernel.make (.HashAggrArray acc.types)) },
                  .int64)
          else
            match acc.types.get? 0 with
            | none => none
            | some t => some (s1, t)
        match conf with
        | none => .crash
        | some (s2, dt) =>
            .ok ({ p with result_fields_ :=
                     p.result_fields_ ++ [⟨"res", .fixedSizeBinary 4⟩] },
                 { s2 with
                    kernel_ := some (Kernel.make (.ProbeArrays dt s.join_type_)),
                    initialized_ := true })

/-- `ProbeArraysVisitorImpl::Eval`: like Encode's, reads the key column(s)
with NO bound check, then sets `finish_return_type_ = Batch`. -/
def Eval (p : ExprVisitor) (s : State) : Outcome (ExprVisitor × State) :=
  match p.dependency_result_type_ with
  | .None =>
      let colAndConcat : Option (ArrowArray × Option Kernel) :=
        match s.concat_kernel_ with
        | some ck =>
            match gatherUnchecked p.in_record_batch_ s.col_id_list_ with
            | none => none
            | some arrs => some (.fromKernel ck.kind, some (ck.evaluate arrs))
        | none =>
            match s.col_id_list_.get? 0 with
            | none => none
            | some cid =>
                match p.in_record_batch_.column cid with
                | none => none
                | some c => some (c, none)
      match colAndConcat with
      | none => .crash
      | some (col, ck?) =>
          match s.kernel_ with
          | none => .crash
          | some k =>
              .ok (p, { s with
                         kernel_ := some (k.evaluate [col]),
                         finish_return_type_ := .Batch,
                         concat_kernel_ :=
                           match ck? with
                           | some ck => some ck
                           | none => s.concat_kernel_ })
  | _ =>
      .err .NotImplemented
        "ProbeArraysVisitorImpl: Does not support this type of input." (p, s)

/-- `ProbeArraysVisitorImpl::Finish`: prints the concat timing and returns
OK — it neither fails nor writes any output holder. -/
def Finish (p : ExprVisitor) (s : State) : Outcome (ExprVisitor × State) :=
  .ok (p, s)

/-- `ProbeArraysVisitorImpl::MakeResultIterator`: valid only when
`finish_return_type_` is `Batch` (set by a successful `Eval`); it does not
touch `p_->return_type_`. -/
def MakeResultIterator (p : ExprVisitor) (s : State) :
    Outcome (ExprVisitor × State × Option IterResult) :=
  match s.finish_return_type_ with
  | .Batch =>
      match s.kernel_ with
      | none => .crash
      | some k => .ok (p, s, some (.fromKernel k.kind))
  | _ =>
      .err .NotImplemented
        ("ProbeArraysVisitorImpl MakeResultIterator: Does not support this type of " ++
         "input")
        (p, s, none)

end ProbeArraysVisitorImpl

/-! ## CreateCodeGenerator (`code_generator_factory.h`) -/

/-- The codegen type chosen by `ExprVisitor::create`: one of the three
recognized constants, or anything else. -/
inductive CodegenType where
  | ARROW_COMPUTE
  | GANDIVA
  | COMPUTE_EXT
  | UNRECOGNIZED (n : Int)
  deriving Repr, DecidableEq

inductive CodeGeneratorKind where
  | ArrowCompute
  | Gandiva
  | ComputeExt
  deriving Repr, DecidableEq

/-- `CreateCodeGenerator`: switches on the codegen type produced by
`nodeVisitor.create` (whose own status is `createStatus`); recognized
types construct the matching generator and return `createStatus`; any
other type sets `*out = nullptr` and returns `TypeError`. -/
def CreateCodeGenerator (createStatus : Status) (codegen_type : CodegenType) :
    Status × Option CodeGeneratorKind :=
  match codegen_type with
  | .ARROW_COMPUTE => (createStatus, some .ArrowCompute)
  | .GANDIVA => (createStatus, some .Gandiva)
  | .COMPUTE_EXT => (createStatus, some .ComputeExt)
  | .UNRECOGNIZED _ => (⟨.TypeError, "Unrecognized expression type."⟩, none)

/-! ## Helper definitions and fixtures -/

/-- Decidable substring test used to state that an error message does (or
does not) mention an operator name. -/
def isPrefixOfB : List Char → List Char → Bool
  | [], _ => true
  | _ :: _, [] => false
  | a :: as, b :: bs => a == b && isPrefixOfB as bs

def isSubstrOfB (pat : List Char) : List Char → Bool
  | [] => isPrefixOfB pat []
  | b :: bs => isPrefixOfB pat (b :: bs) || isSubstrOfB pat bs

/-- `strMentions msg pat` is true when `pat` occurs inside `msg`. -/
def strMentions (msg pat : String) : Bool := isSubstrOfB pat.data msg.data

/-- `true` exactly on `arrow::Status::Invalid` error returns. -/
def Outcome.isInvalidErr {σ : Type} : Outcome σ → Bool
  | .err .Invalid _ _ => true
  | _ => false

/-- Modelled from the spec: the declared output arity of the aggregate
kernel family (`kernels_ext.h` is not among the embedded sources).  The
spec states that for a single parameter column `sum_count` produces a
`(sum, count)` pair while `avgByCount`, consuming a `(sum, count)` pair,
produces a single average column. -/
def aggFuncDeclaredArity : String → Nat
  | "sum_count" => 2
  | "avgByCount" => 1
  | _ => 1

/-- A stage's `dependency_result_type_` survives the given call outcome
untouched (trivially so for UB outcomes, which return no state). -/
def preservesDepTag {σ : Type} (p : ExprVisitor) : Outcome (ExprVisitor × σ) → Prop
  | .ok (p', _) => p'.dependency_result_type_ = p.dependency_result_type_
  | .err _ _ (p', _) => p'.dependency_result_type_ = p.dependency_result_type_
  | .crash => True

/- Concrete fixtures used by witnesses and counterexamples. -/

def fieldX : Field := ⟨"x", .int64⟩
def fieldY : Field := ⟨"y", .int64⟩
def schema2 : Schema := [fieldX, fieldY]

/-- A one-column input batch (narrower than `schema2`, exercising the
defensive bound checks). -/
def batch1 : RecordBatch := ⟨[.input 0]⟩

def baseCtx : ExprVisitor :=
  { schema_ := schema2
    param_field_names_ := ["x"]
    action_name_list_ := ["sum"]
    action_param_list_ := ["x"]
    in_record_batch_ := batch1
    in_array_ := none
    member_record_batch_ := none
    dependency_result_type_ := .None
    return_type_ := .None
    result_fields_ := []
    result_array_ := none
    result_batch_ := none }

/-- Fresh (uninitialized) states for each variant. -/
def splitSt0 : SplitArrayListWithActionVisitorImpl.State := ⟨false, .None, none, []⟩

def aggSt0 : AggregateVisitorImpl.State := ⟨false, .None, none, [], "sum"⟩

def encSt0 : EncodeVisitorImpl.State := ⟨false, none, none, []⟩

def sglSt0 : SingleColState := ⟨false, .None, none, 0⟩

def sortSt0 : SortArraysToIndicesVisitorImpl.State := ⟨false, .None, none, 0, false, true⟩

def shufSt0 : ShuffleArrayListVisitorImpl.State := ⟨false, .None, none, []⟩

def paSt0 : ProbeArraysVisitorImpl.State := ⟨false, .None, none, none, [], 0⟩

/-- Initialized states for each variant, as a successful `Init` against
`schema2` with parameter column `x` would leave them. -/
def splitStReady : SplitArrayListWithActionVisitorImpl.State :=
  ⟨true, .None, some (Kernel.make (.SplitArrayListWithAction ["sum"] [.int64])), [0]⟩

def aggStSum : AggregateVisitorImpl.State :=
  ⟨true, .None, some (Kernel.make (.SumArray .int64)), [0], "sum"⟩

def probeStReady : SingleColState := ⟨true, .None, some (Kernel.make .ProbeArray), 0⟩

def takeStReady : SingleColState := ⟨true, .None, some (Kernel.make .TakeArray), 0⟩

def shufStReady : ShuffleArrayListVisitorImpl.State :=
  ⟨true, .Batch, some (Kernel.make (.ShuffleArrayList [.int64])), [0]⟩

def paStReady : ProbeArraysVisitorImpl.State :=
  ⟨true, .Batch, some (Kernel.make (.ProbeArrays .int64 0)), none, [0], 0⟩

/-! ## Theorems -/

/-- The checked gather loop fails exactly when some resolved id is out of
bounds; it stops at the first violation, before reading any out-of-range
column. -/
theorem gatherChecked_err_of_oob (b : RecordBatch) (ids : List Nat)
    (h : ∃ i ∈ ids, b.num_columns ≤ i) : gatherChecked b ids = .error () := by
  induction ids with
  | nil => rcases h with ⟨i, hi, _⟩; cases hi
  | cons a rest ih =>
      rcases h with ⟨i, hi, hge⟩
      by_cases hna : b.num_columns ≤ a
      · simp [gatherChecked, hna]
      · have hmem : i ∈ rest := by
          rcases List.mem_cons.mp hi with h1 | h1
          · exact absurd (h1 ▸ hge) hna
          · exact h1
        have herr := ih ⟨i, hmem, hge⟩
        cases hcol : b.column a <;> simp [gatherChecked, hna, herr, hcol]

/-- When every resolved id is within bounds, the checked gather loop
succeeds. -/
theorem gatherChecked_ok_of_inbounds (b : RecordBatch) (ids : List Nat)
    (h : ∀ i ∈ ids, i < b.num_columns) :
    ∃ cs, gatherChecked b ids = .ok cs := by
  induction ids with
  | nil => exact ⟨[], rfl⟩
  | cons a rest ih =>
      have ha : a < b.num_columns := h a (List.mem_cons_self a rest)
      rcases ih (fun i hi => h i (List.mem_cons_of_mem a hi)) with ⟨cs, hcs⟩
      have hcol : b.column a = some (b.columns.get ⟨a, ha⟩) := List.get?_eq_get ha
      exact ⟨b.columns.get ⟨a, ha⟩ :: cs,
        by simp [gatherChecked, Nat.not_le.mpr ha, hcol, hcs]⟩

/-- C1 (amended): for every operator variant, calling `Eval` while the
context's dependency tag is one the variant does not support fails with
`NotImplemented` and returns the context and visitor state completely
unchanged (so the output holders — result array, result batch, return
kind — are untouched).  The message is a fixed per-class string that never
names the offending tag, and for the probe-build, take and n-take variants
it misnames the operator as `EncodeVisitorImpl`; for shuffle-array-list
the bound-checked gather runs before the tag dispatch, so the
`NotImplemented` failure is reached once that gather succeeds. -/
theorem c1_eval_unsupported_tag
    (p : ExprVisitor)
    (s1 : SplitArrayListWithActionVisitorImpl.State)
    (s2 : AggregateVisitorImpl.State)
    (s3 : EncodeVisitorImpl.State)
    (s4 s5 s6 : SingleColState)
    (s7 : SortArraysToIndicesVisitorImpl.State)
    (s8 : ShuffleArrayListVisitorImpl.State)
    (s9 : ProbeArraysVisitorImpl.State)
    (cols : List ArrowArray) :
    (p.dependency_result_type_ ≠ .Array →
       SplitArrayListWithActionVisitorImpl.Eval p s1 =
         .err .NotImplemented
           "SplitArrayListWithActionVisitorImpl: Does not support this type of input."
           (p, s1)) ∧
    (p.dependency_result_type_ ≠ .None →
       AggregateVisitorImpl.Eval p s2 =
         .err .NotImplemented
           "AggregateVisitorImpl: Does not support this type of input." (p, s2)) ∧
    (p.dependency_result_type_ ≠ .None →
       EncodeVisitorImpl.Eval p s3 =
         .err .NotImplemented
           "EncodeVisitorImpl: Does not support this type of input." (p, s3)) ∧
    (p.dependency_result_type_ ≠ .None →
       ProbeVisitorImpl.Eval p s4 =
         .err .NotImplemented
           "EncodeVisitorImpl: Does not support this type of input." (p, s4)) ∧
    (p.dependency_result_type_ ≠ .None →
       TakeVisitorImpl.Eval p s5 =
         .err .NotImplemented
           "EncodeVisitorImpl: Does not support this type of input." (p, s5)) ∧
    (p.dependency_result_type_ ≠ .None →
       NTakeVisitorImpl.Eval p s6 =
         .err .NotImplemented
           "EncodeVisitorImpl: Does not support this type of input." (p, s6)) ∧
    (p.dependency_result_type_ ≠ .None →
       SortArraysToIndicesVisitorImpl.Eval p s7 =
         .err .NotImplemented
           "SortArraysToIndicesVisitorImpl: Does not support this type of input."
           (p, s7)) ∧
    ((p.dependency_result_type_ = .Array ∨ p.dependency_result_type_ = .Batch) →
     gatherChecked p.in_record_batch_ s8.col_id_list_ = .ok cols →
       ShuffleArrayListVisitorImpl.Eval p s8 =
         .err .NotImplemented
           "ShuffleArrayListVisitorImpl: Does not support this type of input."
           (p, s8)) ∧
    (p.dependency_result_type_ ≠ .None →
       ProbeArraysVisitorImpl.Eval p s9 =
         .err .NotImplemented
           "ProbeArraysVisitorImpl: Does not support this type of input." (p, s9)) := by
  refine ⟨?_, ?_, ?_, ?_, ?_, ?_, ?_, ?_, ?_⟩
  · intro h
    unfold SplitArrayListWithActionVisitorImpl.Eval
    cases htag : p.dependency_result_type_ <;> simp_all
  · intro h
    unfold AggregateVisitorImpl.Eval
    cases htag : p.dependency_result_type_ <;> simp_all
  · intro h
    unfold EncodeVisitorImpl.Eval
    cases htag : p.dependency_result_type_ <;> simp_all
  · intro h
    unfold ProbeVisitorImpl.Eval singleColEval
    cases htag : p.dependency_result_type_ <;> simp_all
  · intro h
    unfold TakeVisitorImpl.Eval singleColEval
    cases htag : p.dependency_result_type_ <;> simp_all
  · intro h
    unfold NTakeVisitorImpl.Eval singleColEval
    cases htag : p.dependency_result_type_ <;> simp_all
  · intro h
    unfold SortArraysToIndicesVisitorImpl.Eval
    cases htag : p.dependency_result_type_ <;> simp_all
  · intro h hg
    unfold ShuffleArrayListVisitorImpl.Eval
    rcases h with h | h <;> simp_all
  · intro h
    unfold ProbeArraysVisitorImpl.Eval
    cases htag : p.dependency_result_type_ <;> simp_all

/-- C1 counterexample: the probe-build operator evaluated under the
unsupported `Array` tag does fail with `NotImplemented`, but the error
message names `EncodeVisitorImpl`, not the probe operator — the string
`ProbeVisitorImpl` occurs nowhere in it (and no tag name is mentioned
either), refuting the claim that the error names the operator and the
unsupported tag. -/
theorem c1_counterexample :
    ProbeVisitorImpl.Eval { baseCtx with dependency_result_type_ := .Array }
        probeStReady =
      .err .NotImplemented "EncodeVisitorImpl: Does not support this type of input."
        ({ baseCtx with dependency_result_type_ := .Array }, probeStReady) ∧
    strMentions "EncodeVisitorImpl: Does not support this type of input."
      "ProbeVisitorImpl" = false ∧
    strMentions "EncodeVisitorImpl: Does not support this type of input."
      "Array" = false :=
  ⟨rfl, by decide, by decide⟩

/-- C1 witness: the amended theorem applied to the probe-build operator
under tag `Array` and to shuffle-array-list under tag `Batch`. -/
theorem c1_witness :
    ProbeVisitorImpl.Eval { baseCtx with dependency_result_type_ := .Array }
        probeStReady =
      .err .NotImplemented "EncodeVisitorImpl: Does not support this type of input."
        ({ baseCtx with dependency_result_type_ := .Array }, probeStReady) ∧
    ShuffleArrayListVisitorImpl.Eval { baseCtx with dependency_result_type_ := .Batch }
        shufStReady =
      .err .NotImplemented
        "ShuffleArrayListVisitorImpl: Does not support this type of input."
        ({ baseCtx with dependency_result_type_ := .Batch }, shufStReady) :=
  ⟨(c1_eval_unsupported_tag { baseCtx with dependency_result_type_ := .Array }
      splitSt0 aggSt0 encSt0 probeStReady sglSt0 sglSt0 sortSt0 shufSt0 paSt0
      []).2.2.2.1 (by decide),
   (c1_eval_unsupported_tag { baseCtx with dependency_result_type_ := .Batch }
      splitSt0 aggSt0 encSt0 sglSt0 sglSt0 sglSt0 sortSt0 shufStReady paSt0
      [.input 0]).2.2.2.2.2.2.2.1 (Or.inr rfl) rfl⟩

/-- C2 counterexample: the encode operator's `Eval` performs NO per-call
bound check.  With a resolved column id `2` and a one-column input batch
(tag `None`, the supported tag), the C++ code reads
`in_record_batch_->column(2)` out of range — undefined behaviour, embedded
as `crash` — instead of failing with `InvalidArgument`. -/
theorem c2_counterexample :
    EncodeVisitorImpl.Eval baseCtx
        ⟨true, some (Kernel.make .EncodeArray), none, [2]⟩ = .crash ∧
    (EncodeVisitorImpl.Eval baseCtx
        ⟨true, some (Kernel.make .EncodeArray), none, [2]⟩).isInvalidErr = false :=
  ⟨rfl, rfl⟩

/-- C2 (amended): only the split-by-action, aggregate, sort-to-indices and
shuffle-array-list variants check each resolved column index against the
current batch's column count on every `Eval` call, before reading the
column, failing with `Invalid` (the `InvalidArgument` kind); the encode,
probe-build, take, n-take and probe-arrays variants read the column with
no such check. -/
theorem c2_bound_check
    (p : ExprVisitor)
    (s1 : SplitArrayListWithActionVisitorImpl.State)
    (s2 : AggregateVisitorImpl.State)
    (s7 : SortArraysToIndicesVisitorImpl.State)
    (s8 : ShuffleArrayListVisitorImpl.State) :
    (p.dependency_result_type_ = .Array →
     (∃ i ∈ s1.col_id_list_, p.in_record_batch_.num_columns ≤ i) →
       SplitArrayListWithActionVisitorImpl.Eval p s1 =
         .err .Invalid
           ("SplitArrayListWithActionVisitorImpl Eval col_id is bigger than input " ++
            "batch numColumns.") (p, s1)) ∧
    (p.dependency_result_type_ = .None →
     (∃ i ∈ s2.col_id_list_, p.in_record_batch_.num_columns ≤ i) →
       AggregateVisitorImpl.Eval p s2 =
         .err .Invalid
           ("AggregateVisitorImpl Eval col_id is bigger than input " ++
            "batch numColumns.") (p, s2)) ∧
    (p.dependency_result_type_ = .None →
     p.in_record_batch_.num_columns ≤ s7.col_id_ →
       SortArraysToIndicesVisitorImpl.Eval p s7 =
         .err .Invalid
           ("SortArraysToIndicesVisitorImpl Eval col_id is bigger than input " ++
            "batch numColumns.") (p, s7)) ∧
    ((∃ i ∈ s8.col_id_list_, p.in_record_batch_.num_columns ≤ i) →
       ShuffleArrayListVisitorImpl.Eval p s8 =
         .err .Invalid
           ("ShuffleArrayListVisitorImpl Eval col_id is bigger than input " ++
            "batch numColumns.") (p, s8)) := by
  refine ⟨?_, ?_, ?_, ?_⟩
  · intro htag hoob
    have herr := gatherChecked_err_of_oob p.in_record_batch_ s1.col_id_list_ hoob
    unfold SplitArrayListWithActionVisitorImpl.Eval
    simp [htag, herr]
  · intro htag hoob
    have herr := gatherChecked_err_of_oob p.in_record_batch_ s2.col_id_list_ hoob
    unfold AggregateVisitorImpl.Eval
    simp [htag, herr]
  · intro htag hle
    unfold SortArraysToIndicesVisitorImpl.Eval
    simp [htag, hle]
  · intro hoob
    have herr := gatherChecked_err_of_oob p.in_record_batch_ s8.col_id_list_ hoob
    unfold ShuffleArrayListVisitorImpl.Eval
    simp [herr]

/-- C2 witness: the aggregate operator with resolved id 5 against a
one-column batch fails `Invalid` on `Eval`. -/
theorem c2_witness :
    AggregateVisitorImpl.Eval baseCtx
        ⟨true, .None, some (Kernel.make (.SumArray .int64)), [5], "sum"⟩ =
      .err .Invalid
        "AggregateVisitorImpl Eval col_id is bigger than input batch numColumns."
        (baseCtx, ⟨true, .None, some (Kernel.make (.SumArray .int64)), [5], "sum"⟩) :=
  (c2_bound_check baseCtx splitSt0
      ⟨true, .None, some (Kernel.make (.SumArray .int64)), [5], "sum"⟩
      sortSt0 shufSt0).2.1 rfl ⟨5, by decide, by decide⟩

/-- C3: for every operator variant, a second `Init` after a successful
first one returns OK with the context and visitor state completely
unchanged — no entry is appended to the shared result-field list, the
resolved column-index list is untouched, and the kernel is not rebuilt. -/
theorem c3_init_idempotent
    (p : ExprVisitor)
    (s1 : SplitArrayListWithActionVisitorImpl.State)
    (s2 : AggregateVisitorImpl.State)
    (s3 : EncodeVisitorImpl.State)
    (s4 s5 s6 : SingleColState)
    (s7 : SortArraysToIndicesVisitorImpl.State)
    (s8 : ShuffleArrayListVisitorImpl.State)
    (s9 : ProbeArraysVisitorImpl.State) :
    (s1.initialized_ = true →
       SplitArrayListWithActionVisitorImpl.Init p s1 = .ok (p, s1)) ∧
    (s2.initialized_ = true → AggregateVisitorImpl.Init p s2 = .ok (p, s2)) ∧
    (s3.initialized_ = true → EncodeVisitorImpl.Init p s3 = .ok (p, s3)) ∧
    (s4.initialized_ = true → ProbeVisitorImpl.Init p s4 = .ok (p, s4)) ∧
    (s5.initialized_ = true → TakeVisitorImpl.Init p s5 = .ok (p, s5)) ∧
    (s6.initialized_ = true → NTakeVisitorImpl.Init p s6 = .ok (p, s6)) ∧
    (s7.initialized_ = true → SortArraysToIndicesVisitorImpl.Init p s7 = .ok (p, s7)) ∧
    (s8.initialized_ = true → ShuffleArrayListVisitorImpl.Init p s8 = .ok (p, s8)) ∧
    (s9.initialized_ = true → ProbeArraysVisitorImpl.Init p s9 = .ok (p, s9)) := by
  refine ⟨?_, ?_, ?_, ?_, ?_, ?_, ?_, ?_, ?_⟩ <;> intro h
  · unfold SplitArrayListWithActionVisitorImpl.Init; simp [h]
  · unfold AggregateVisitorImpl.Init; simp [h]
  · unfold EncodeVisitorImpl.Init; simp [h]
  · unfold ProbeVisitorImpl.Init singleColInit; simp [h]
  · unfold TakeVisitorImpl.Init singleColInit; simp [h]
  · unfold NTakeVisitorImpl.Init singleColInit; simp [h]
  · unfold SortArraysToIndicesVisitorImpl.Init; simp [h]
  · unfold ShuffleArrayListVisitorImpl.Init; simp [h]
  · unfold ProbeArraysVisitorImpl.Init; simp [h]

/-- C3 witness: a second `Init` on an initialized aggregate operator and on
an initialized shuffle operator is a pure no-op. -/
theorem c3_witness :
    AggregateVisitorImpl.Init baseCtx aggStSum = .ok (baseCtx, aggStSum) ∧
    ShuffleArrayListVisitorImpl.Init baseCtx shufStReady =
      .ok (baseCtx, shufStReady) :=
  ⟨(c3_init_idempotent baseCtx splitSt0 aggStSum encSt0 sglSt0 sglSt0 sglSt0
      sortSt0 shufSt0 paSt0).2.1 rfl,
   (c3_init_idempotent baseCtx splitSt0 aggSt0 encSt0 sglSt0 sglSt0 sglSt0
      sortSt0 shufStReady paSt0).2.2.2.2.2.2.2.1 rfl⟩

/-- C4 counterexample: `SetMember` before `Init` fails with
`arrow::Status::Invalid("Kernel is not initialized")` — the very same
status kind the code uses for its `InvalidArgument`-class failures, as the
second conjunct shows for a missing column name.  Arrow (and this code)
has no separate `InvalidState` kind, refuting "fails with the InvalidState
error kind (not InvalidArgument)". -/
theorem c4_counterexample :
    TakeVisitorImpl.SetMember baseCtx sglSt0 =
      .err .Invalid "Kernel is not initialized" (baseCtx, sglSt0) ∧
    GetColumnIdAndFieldByName schema2 "absent" =
      .error ⟨.Invalid, "GetColumnIdAndFieldByName doesn't found col_name absent"⟩ :=
  ⟨rfl, rfl⟩

/-- C4 (amended): for the probe-build, take and n-take variants,
`SetMember` before a successful `Init` fails with the `Invalid` status
kind (the same kind the code uses for `InvalidArgument` conditions; there
is no distinct invalid-state kind) and message "Kernel is not
initialized", leaving both states unchanged; on an initialized operator it
binds the context's member record batch into the kernel and returns OK. -/
theorem c4_setmember (p : ExprVisitor) (s : SingleColState) (k : Kernel) :
    (s.initialized_ = false →
       ProbeVisitorImpl.SetMember p s =
         .err .Invalid "Kernel is not initialized" (p, s) ∧
       TakeVisitorImpl.SetMember p s =
         .err .Invalid "Kernel is not initialized" (p, s) ∧
       NTakeVisitorImpl.SetMember p s =
         .err .Invalid "Kernel is not initialized" (p, s)) ∧
    (s.initialized_ = true → s.kernel_ = some k →
       ProbeVisitorImpl.SetMember p s =
         .ok (p, { s with kernel_ := some (k.setMember p.member_record_batch_) }) ∧
       TakeVisitorImpl.SetMember p s =
         .ok (p, { s with kernel_ := some (k.setMember p.member_record_batch_) }) ∧
       NTakeVisitorImpl.SetMember p s =
         .ok (p, { s with kernel_ := some (k.setMember p.member_record_batch_) }) ∧
       (k.setMember p.member_record_batch_).member = some p.member_record_batch_) := by
  constructor
  · intro h
    refine ⟨?_, ?_, ?_⟩
    · unfold ProbeVisitorImpl.SetMember singleColSetMember; simp [h]
    · unfold TakeVisitorImpl.SetMember singleColSetMember; simp [h]
    · unfold NTakeVisitorImpl.SetMember singleColSetMember; simp [h]
  · intro h hk
    refine ⟨?_, ?_, ?_, rfl⟩
    · unfold ProbeVisitorImpl.SetMember singleColSetMember; simp [h, hk]
    · unfold TakeVisitorImpl.SetMember singleColSetMember; simp [h, hk]
    · unfold NTakeVisitorImpl.SetMember singleColSetMember; simp [h, hk]

/-- C4 witness: the amended theorem at an uninitialized and at an
initialized take operator with the context's (absent) member batch. -/
theorem c4_witness :
    NTakeVisitorImpl.SetMember baseCtx sglSt0 =
      .err .Invalid "Kernel is not initialized" (baseCtx, sglSt0) ∧
    TakeVisitorImpl.SetMember baseCtx takeStReady =
      .ok (baseCtx,
        { takeStReady with kernel_ := some ((Kernel.make .TakeArray).setMember none) }) :=
  ⟨((c4_setmember baseCtx sglSt0 (Kernel.make .TakeArray)).1 rfl).2.2,
   ((c4_setmember baseCtx takeStReady (Kernel.make .TakeArray)).2 rfl rfl).2.1⟩

/-- C5: aggregate `Init` with function name `sum_count` appends, beyond
the parameter columns' fields, exactly one synthetic `cnt : int64` field
to the shared result-field list; with `avgByCount` it erases the last
entry of that list (the count column, when the convention of passing it
last is followed), so no count field remains when none hides elsewhere;
and under the conventional parameter counts (one column for `sum_count`,
a sum/count pair for `avgByCount`) the number of fields this operator
contributes equals the kernel's declared output arity. -/
theorem c5_aggregate_fields (p : ExprVisitor) (s : AggregateVisitorImpl.State)
    (acc : ResolveAcc) (f0 : Field)
    (hinit : s.initialized_ = false)
    (hres : resolveAll p.schema_ p.param_field_names_ {} = .ok acc)
    (hhead : (p.result_fields_ ++ acc.fields).get? 0 = some f0) :
    (s.func_name_ = "sum_count" →
       AggregateVisitorImpl.Init p s =
         .ok ({ p with result_fields_ :=
                  p.result_fields_ ++ acc.fields ++ [⟨"cnt", .int64⟩] },
              { s with col_id_list_ := s.col_id_list_ ++ acc.ids,
                       kernel_ := some (Kernel.make (.SumCountArray f0.type)),
                       initialized_ := true })) ∧
    (s.func_name_ = "avgByCount" →
       AggregateVisitorImpl.Init p s =
         .ok ({ p with result_fields_ := (p.result_fields_ ++ acc.fields).dropLast },
              { s with col_id_list_ := s.col_id_list_ ++ acc.ids,
                       kernel_ := some (Kernel.make (.AvgByCountArray f0.type)),
                       initialized_ := true })) ∧
    (acc.fields ≠ [] →
       (p.result_fields_ ++ acc.fields).dropLast =
         p.result_fields_ ++ acc.fields.dropLast) ∧
    (acc.fields ≠ [] →
     (∀ g ∈ p.result_fields_, g.name ≠ "cnt") →
     (∀ g ∈ acc.fields.dropLast, g.name ≠ "cnt") →
       ∀ g ∈ (p.result_fields_ ++ acc.fields).dropLast, g.name ≠ "cnt") ∧
    (acc.fields.length = 1 →
       (acc.fields ++ [(⟨"cnt", .int64⟩ : Field)]).length =
         aggFuncDeclaredArity "sum_count") ∧
    (acc.fields.length = 2 →
       acc.fields.dropLast.length = aggFuncDeclaredArity "avgByCount") := by
  have hhead' : (p.result_fields_ ++ acc.fields)[0]? = some f0 := by
    simpa [List.get?_eq_getElem?] using hhead
  refine ⟨?_, ?_, ?_, ?_, ?_, ?_⟩
  · intro hname
    unfold AggregateVisitorImpl.Init
    simp [hinit, hres, hhead', hname]
  · intro hname
    unfold AggregateVisitorImpl.Init
    simp [hinit, hres, hhead', hname]
  · intro hne
    exact List.dropLast_append_of_ne_nil p.result_fields_ hne
  · intro hne h1 h2 g hg
    rw [List.dropLast_append_of_ne_nil p.result_fields_ hne] at hg
    rcases List.mem_append.mp hg with hmem | hmem
    · exact h1 g hmem
    · exact h2 g hmem
  · intro hlen
    simp [aggFuncDeclaredArity, hlen]
  · intro hlen
    have : acc.fields.dropLast.length = acc.fields.length - 1 :=
      List.length_dropLast acc.fields
    simp [aggFuncDeclaredArity, this, hlen]

/-- C5 witness: `sum_count` over parameter column `x` appends `x` and one
synthetic `cnt` field, and `avgByCount` over parameter columns `x, y`
(the sum and its count) appends only `x`. -/
theorem c5_witness :
    AggregateVisitorImpl.Init baseCtx ⟨false, .None, none, [], "sum_count"⟩ =
      .ok ({ baseCtx with result_fields_ := [fieldX, ⟨"cnt", .int64⟩] },
           ⟨true, .None, some (Kernel.make (.SumCountArray .int64)), [0], "sum_count"⟩) ∧
    AggregateVisitorImpl.Init { baseCtx with param_field_names_ := ["x", "y"] }
        ⟨false, .None, none, [], "avgByCount"⟩ =
      .ok ({ baseCtx with param_field_names_ := ["x", "y"], result_fields_ := [fieldX] },
           ⟨true, .None, some (Kernel.make (.AvgByCountArray .int64)), [0, 1],
            "avgByCount"⟩) :=
  ⟨(c5_aggregate_fields baseCtx ⟨false, .None, none, [], "sum_count"⟩
      ⟨[fieldX], [0], [.int64]⟩ fieldX rfl rfl rfl).1 rfl,
   (c5_aggregate_fields { baseCtx with param_field_names_ := ["x", "y"] }
      ⟨false, .None, none, [], "avgByCount"⟩
      ⟨[fieldX, fieldY], [0, 1], [.int64, .int64]⟩ fieldX rfl rfl rfl).2.1 rfl⟩

/-- C6 counterexample: calling the eager `Finish` path on an initialized
probe-arrays operator (which has evaluated, so `finish_return_type_` is
`Batch`) does NOT fail with `NotImplemented` — it returns OK, leaving
everything untouched (the override only logs the concat timing). -/
theorem c6_counterexample :
    ProbeArraysVisitorImpl.Finish baseCtx paStReady = .ok (baseCtx, paStReady) :=
  rfl

/-- C6 (amended): the probe-arrays operator never produces an eager
`Batch` result: its `Finish` override writes no output holder and returns
OK unconditionally (it only logs timing), so the only materialization path
is `MakeResultIterator`, which succeeds exactly when `Eval` has run under
the `None` tag (setting `finish_return_type_` to `Batch`) and fails with
`NotImplemented` otherwise. -/
theorem c6_probearrays_lazy_only (p : ExprVisitor)
    (s : ProbeArraysVisitorImpl.State) (k : Kernel) (cid : Nat) (c : ArrowArray) :
    (ProbeArraysVisitorImpl.Finish p s = .ok (p, s)) ∧
    (s.finish_return_type_ = .Batch → s.kernel_ = some k →
       ProbeArraysVisitorImpl.MakeResultIterator p s =
         .ok (p, s, some (.fromKernel k.kind))) ∧
    (s.finish_return_type_ ≠ .Batch →
       ProbeArraysVisitorImpl.MakeResultIterator p s =
         .err .NotImplemented
           ("ProbeArraysVisitorImpl MakeResultIterator: Does not support this type of " ++
            "input") (p, s, none)) ∧
    (p.dependency_result_type_ = .None → s.concat_kernel_ = none →
     s.col_id_list_.get? 0 = some cid → p.in_record_batch_.column cid = some c →
     s.kernel_ = some k →
       ProbeArraysVisitorImpl.Eval p s =
         .ok (p, { s with kernel_ := some (k.evaluate [c]),
                          finish_return_type_ := .Batch })) := by
  refine ⟨rfl, ?_, ?_, ?_⟩
  · intro hret hk
    unfold ProbeArraysVisitorImpl.MakeResultIterator
    simp [hret, hk]
  · intro hret
    unfold ProbeArraysVisitorImpl.MakeResultIterator
    cases h : s.finish_return_type_ <;> simp_all
  · intro htag hconcat hcid hcol hk
    have hcid' : s.col_id_list_[0]? = some cid := by
      simpa [List.get?_eq_getElem?] using hcid
    unfold ProbeArraysVisitorImpl.Eval
    simp [htag, hconcat, hcid', hcol, hk]

/-- C6 witness: the amended theorem at an initialized, evaluated
probe-arrays operator — `Finish` is a no-op OK and `MakeResultIterator`
yields the kernel's iterator. -/
theorem c6_witness :
    ProbeArraysVisitorImpl.Finish baseCtx paStReady = .ok (baseCtx, paStReady) ∧
    ProbeArraysVisitorImpl.MakeResultIterator baseCtx paStReady =
      .ok (baseCtx, paStReady,
           some (.fromKernel (.ProbeArrays .int64 0))) :=
  ⟨(c6_probearrays_lazy_only baseCtx paStReady
      (Kernel.make (.ProbeArrays .int64 0)) 0 (.input 0)).1,
   (c6_probearrays_lazy_only baseCtx paStReady
      (Kernel.make (.ProbeArrays .int64 0)) 0 (.input 0)).2.1 rfl rfl⟩

/-- C7 counterexample: `MakeResultIterator` on the shuffle operator with NO
indices array in the context (`in_array_` empty, i.e. no prior cook pass
delivered one) does not fail with `InvalidArgument`: it silently skips the
dependency binding and returns OK with an iterator. -/
theorem c7_counterexample :
    ShuffleArrayListVisitorImpl.MakeResultIterator baseCtx shufStReady =
      .ok ({ baseCtx with return_type_ := .BatchIterator }, shufStReady,
           some (.fromKernel (.ShuffleArrayList [.int64]))) :=
  rfl

/-- C7 (amended): for the shuffle-array-list operator, `Finish` with no
indices array available in the context fails with `Invalid` (the
`InvalidArgument` kind) and changes nothing; `MakeResultIterator`,
however, performs no such check — with no indices array it skips the
dependency-input binding and proceeds. -/
theorem c7_shuffle_apply_without_cook (p : ExprVisitor)
    (s : ShuffleArrayListVisitorImpl.State) (k : Kernel) :
    (p.in_array_ = none →
       ShuffleArrayListVisitorImpl.Finish p s =
         .err .Invalid
           ("ShuffleArrayListVisitorImpl depends on an indices array to indicate " ++
            "shuffle, while input_array is invalid.") (p, s)) ∧
    (p.in_array_ = none → s.kernel_ = some k → s.finish_return_type_ = .Batch →
       ShuffleArrayListVisitorImpl.MakeResultIterator p s =
         .ok ({ p with return_type_ := .BatchIterator }, s,
              some (.fromKernel k.kind))) := by
  constructor
  · intro harr
    unfold ShuffleArrayListVisitorImpl.Finish
    simp [harr]
  · intro harr hk hret
    unfold ShuffleArrayListVisitorImpl.MakeResultIterator
    simp [harr, hk, hret]

/-- C7 witness: `Finish` without an indices array fails `Invalid`, while
`MakeResultIterator` in the same situation succeeds. -/
theorem c7_witness :
    ShuffleArrayListVisitorImpl.Finish baseCtx shufStReady =
      .err .Invalid
        ("ShuffleArrayListVisitorImpl depends on an indices array to indicate " ++
         "shuffle, while input_array is invalid.") (baseCtx, shufStReady) ∧
    ShuffleArrayListVisitorImpl.MakeResultIterator baseCtx shufStReady =
      .ok ({ baseCtx with return_type_ := .BatchIterator }, shufStReady,
           some (.fromKernel (.ShuffleArrayList [.int64]))) :=
  ⟨(c7_shuffle_apply_without_cook baseCtx shufStReady
      (Kernel.make (.ShuffleArrayList [.int64]))).1 rfl,
   (c7_shuffle_apply_without_cook baseCtx shufStReady
      (Kernel.make (.ShuffleArrayList [.int64]))).2 rfl rfl rfl⟩

/-- C8 counterexample: aggregate `Init` with the unrecognized function
name `median` does NOT fail with `TypeError` — the selection chain has no
final else, so it resolves the parameter column, marks the visitor
initialized and returns OK with no kernel bound (`kernel_` stays `none`). -/
theorem c8_counterexample :
    AggregateVisitorImpl.Init baseCtx ⟨false, .None, none, [], "median"⟩ =
      .ok ({ baseCtx with result_fields_ := [fieldX] },
           ⟨true, .None, none, [0], "median"⟩) :=
  rfl

/-- C8 (amended): `CreateCodeGenerator` with an expression whose codegen
type matches none of the recognized kinds sets the output to null and
returns `TypeError`; but aggregate `Init` with a function name outside the
declared set does NOT fail — it returns OK, marking the visitor
initialized while leaving the kernel unbound. -/
theorem c8_unrecognized_name (st : Status) (n : Int)
    (p : ExprVisitor) (s : AggregateVisitorImpl.State)
    (acc : ResolveAcc) (f0 : Field)
    (hinit : s.initialized_ = false)
    (hres : resolveAll p.schema_ p.param_field_names_ {} = .ok acc)
    (hhead : (p.result_fields_ ++ acc.fields).get? 0 = some f0)
    (hname : s.func_name_ ∉ (["sum", "append", "count", "unique", "sum_count",
                              "avgByCount", "min", "max"] : List String)) :
    CreateCodeGenerator st (.UNRECOGNIZED n) =
      (⟨.TypeError, "Unrecognized expression type."⟩, none) ∧
    AggregateVisitorImpl.Init p s =
      .ok ({ p with result_fields_ := p.result_fields_ ++ acc.fields },
           { s with col_id_list_ := s.col_id_list_ ++ acc.ids,
                    initialized_ := true }) := by
  have hhead' : (p.result_fields_ ++ acc.fields)[0]? = some f0 := by
    simpa [List.get?_eq_getElem?] using hhead
  simp only [List.mem_cons, List.mem_singleton, not_or] at hname
  obtain ⟨h1, h2, h3, h4, h5, h6, h7, h8⟩ := hname
  refine ⟨rfl, ?_⟩
  unfold AggregateVisitorImpl.Init
  simp [hinit, hres, hhead', h1, h2, h3, h4, h5, h6, h7, h8]

/-- C8 witness: the amended theorem at a `median` aggregate over column
`x` and at codegen type 99. -/
theorem c8_witness :
    CreateCodeGenerator ⟨.OK, ""⟩ (.UNRECOGNIZED 99) =
      (⟨.TypeError, "Unrecognized expression type."⟩, none) ∧
    AggregateVisitorImpl.Init baseCtx ⟨false, .None, none, [], "median"⟩ =
      .ok ({ baseCtx with result_fields_ := [fieldX] },
           ⟨true, .None, none, [0], "median"⟩) :=
  ⟨(c8_unrecognized_name ⟨.OK, ""⟩ 99 baseCtx ⟨false, .None, none, [], "median"⟩
      ⟨[fieldX], [0], [.int64]⟩ fieldX rfl rfl rfl (by decide)).1,
   (c8_unrecognized_name ⟨.OK, ""⟩ 99 baseCtx ⟨false, .None, none, [], "median"⟩
      ⟨[fieldX], [0], [.int64]⟩ fieldX rfl rfl rfl (by decide)).2⟩

/-- C9: shuffle-array-list `SetDependency(iterator, index)` records the
iterator for position `index` in the kernel (appending to its dependency
list) and sets the context's `dependency_result_type_` to `BatchIterator`;
a subsequent `Eval` under that tag takes the apply path, writing the
kernel's batch into the context's `result_batch_` holder with
`return_type_ = Batch`. -/
theorem c9_shuffle_setdependency
    (p p2 : ExprVisitor) (s s2 : ShuffleArrayListVisitorImpl.State)
    (k k2 : Kernel) (iter idx : Nat) (cols : List ArrowArray)
    (hk : s.kernel_ = some k) :
    (ShuffleArrayListVisitorImpl.SetDependency p s iter idx =
       .ok ({ p with dependency_result_type_ := .BatchIterator },
            { s with kernel_ := some (k.setDependencyIter iter idx) })) ∧
    ((k.setDependencyIter iter idx).depIters = k.depIters ++ [(iter, idx)]) ∧
    (p2.dependency_result_type_ = .BatchIterator → s2.kernel_ = some k2 →
     gatherChecked p2.in_record_batch_ s2.col_id_list_ = .ok cols →
       ShuffleArrayListVisitorImpl.Eval p2 s2 =
         .ok ({ p2 with result_batch_ := some (.fromKernel k2.kind),
                        return_type_ := .Batch },
              { s2 with kernel_ := some (k2.evaluate cols) })) := by
  refine ⟨?_, rfl, ?_⟩
  · unfold ShuffleArrayListVisitorImpl.SetDependency
    simp [hk]
  · intro htag hk2 hg
    unfold ShuffleArrayListVisitorImpl.Eval
    simp [htag, hk2, hg]

/-- C9 witness: `SetDependency(iterator 7, index 1)` on an initialized
shuffle operator, then `Eval` on the resulting context takes the apply
path. -/
theorem c9_witness :
    ShuffleArrayListVisitorImpl.SetDependency baseCtx shufStReady 7 1 =
      .ok ({ baseCtx with dependency_result_type_ := .BatchIterator },
           { shufStReady with kernel_ := some ((Kernel.make (.ShuffleArrayList [.int64])).setDependencyIter 7 1) }) ∧
    ShuffleArrayListVisitorImpl.Eval
        { baseCtx with dependency_result_type_ := .BatchIterator } shufStReady =
      .ok ({ baseCtx with dependency_result_type_ := .BatchIterator,
                          result_batch_ := some (.fromKernel (.ShuffleArrayList [.int64])),
                          return_type_ := .Batch },
           { shufStReady with kernel_ := some ((Kernel.make (.ShuffleArrayList [.int64])).evaluate [.input 0]) }) :=
  ⟨(c9_shuffle_setdependency baseCtx baseCtx shufStReady shufStReady
      (Kernel.make (.ShuffleArrayList [.int64])) (Kernel.make (.ShuffleArrayList [.int64]))
      7 1 [] rfl).1,
   (c9_shuffle_setdependency baseCtx
      { baseCtx with dependency_result_type_ := .BatchIterator }
      shufStReady shufStReady
      (Kernel.make (.ShuffleArrayList [.int64])) (Kernel.make (.ShuffleArrayList [.int64]))
      7 1 [.input 0] rfl).2.2 rfl rfl rfl⟩

/-- C10: every successful `Eval` of the split-by-action operator (entered
under the `Array` tag) sets its `finish_return_type_` to `Batch` and
resets the context's `dependency_result_type_` to `None`, consuming the
upstream `Array` tag; and no other variant's `Eval` ever rewrites the
dependency tag, on any path. -/
theorem c10_split_consumes_array_tag
    (p : ExprVisitor) (s : SplitArrayListWithActionVisitorImpl.State)
    (k : Kernel) (cols : List ArrowArray)
    (htag : p.dependency_result_type_ = .Array)
    (hk : s.kernel_ = some k)
    (hg : gatherChecked p.in_record_batch_ s.col_id_list_ = .ok cols) :
    (SplitArrayListWithActionVisitorImpl.Eval p s =
       .ok ({ p with dependency_result_type_ := .None },
            { s with kernel_ := some (k.evaluate cols),
                     finish_return_type_ := .Batch })) ∧
    (∀ (q : ExprVisitor) (t : AggregateVisitorImpl.State),
       preservesDepTag q (AggregateVisitorImpl.Eval q t)) ∧
    (∀ (q : ExprVisitor) (t : EncodeVisitorImpl.State),
       preservesDepTag q (EncodeVisitorImpl.Eval q t)) ∧
    (∀ (q : ExprVisitor) (t : SingleColState),
       preservesDepTag q (ProbeVisitorImpl.Eval q t) ∧
       preservesDepTag q (TakeVisitorImpl.Eval q t) ∧
       preservesDepTag q (NTakeVisitorImpl.Eval q t)) ∧
    (∀ (q : ExprVisitor) (t : SortArraysToIndicesVisitorImpl.State),
       preservesDepTag q (SortArraysToIndicesVisitorImpl.Eval q t)) ∧
    (∀ (q : ExprVisitor) (t : ShuffleArrayListVisitorImpl.State),
       preservesDepTag q (ShuffleArrayListVisitorImpl.Eval q t)) ∧
    (∀ (q : ExprVisitor) (t : ProbeArraysVisitorImpl.State),
       preservesDepTag q (ProbeArraysVisitorImpl.Eval q t)) := by
  refine ⟨?_, ?_, ?_, ?_, ?_, ?_, ?_⟩
  · unfold SplitArrayListWithActionVisitorImpl.Eval
    simp [htag, hk, hg]
  · intro q t
    unfold AggregateVisitorImpl.Eval
    cases h : q.dependency_result_type_ <;> simp only [] <;>
      (repeat' split) <;> simp [preservesDepTag, h]
  · intro q t
    unfold EncodeVisitorImpl.Eval
    cases h : q.dependency_result_type_ <;> simp only [] <;>
      (repeat' split) <;> simp [preservesDepTag, h]
  · intro q t
    refine ⟨?_, ?_, ?_⟩
    · unfold ProbeVisitorImpl.Eval singleColEval
      cases h : q.dependency_result_type_ <;> simp only [] <;>
        (repeat' split) <;> simp [preservesDepTag, h]
    · unfold TakeVisitorImpl.Eval singleColEval
      cases h : q.dependency_result_type_ <;> simp only [] <;>
        (repeat' split) <;> simp [preservesDepTag, h]
    · unfold NTakeVisitorImpl.Eval singleColEval
      cases h : q.dependency_result_type_ <;> simp only [] <;>
        (repeat' split) <;> simp [preservesDepTag, h]
  · intro q t
    unfold SortArraysToIndicesVisitorImpl.Eval
    cases h : q.dependency_result_type_ <;> simp only [] <;>
      (repeat' split) <;> simp [preservesDepTag, h]
  · intro q t
    unfold ShuffleArrayListVisitorImpl.Eval
    cases h : q.dependency_result_type_ <;> simp only [] <;>
      (repeat' split) <;> simp [preservesDepTag, h]
  · intro q t
    unfold ProbeArraysVisitorImpl.Eval
    cases h : q.dependency_result_type_ <;> simp only [] <;>
      (repeat' split) <;> simp [preservesDepTag, h]

/-- C10 witness: the split operator evaluated under the `Array` tag on a
one-column batch resets the dependency tag to `None` and will finish as a
`Batch`. -/
theorem c10_witness :
    SplitArrayListWithActionVisitorImpl.Eval
        { baseCtx with dependency_result_type_ := .Array } splitStReady =
      .ok ({ baseCtx with dependency_result_type_ := .None },
           { splitStReady with
              kernel_ := some ((Kernel.make
                (.SplitArrayListWithAction ["sum"] [.int64])).evaluate [.input 0]),
              finish_return_type_ := .Batch }) :=
  (c10_split_consumes_array_tag { baseCtx with dependency_result_type_ := .Array }
      splitStReady (Kernel.make (.SplitArrayListWithAction ["sum"] [.int64]))
      [.input 0] rfl rfl rfl).1

end OAP
